import Mathlib

/-
  Verification development for the LSM6DS3 sensor pipeline
  (src/src/sensors/LSM6DS3sensor.cpp).

  Shallow embedding conventions:
  * IEEE `float` arithmetic is modelled by exact rational arithmetic (ℚ);
    every arithmetic identity claimed by the spec is algebraic, so ℚ is the
    idealized semantics of the float expressions in the source.
  * Signed 16-bit raw register reads are modelled as `Int` (the claims never
    depend on the 16-bit bound).
  * Side-effecting collaborators (telemetry transport, logger) are modelled
    as explicit event lists returned by the embedded functions; indicator
    (LED) control and imperative delays have no observable data effect and
    are not modelled.
  * Build-time configuration: the source fixes `DISABLE_ASCALE = true`,
    `MADGWICK = false`, `FORCE_CALIBRATION = false`; `OPTIMIZE_UPDATES`
    comes from an outside header and is kept as a parameter.
-/

namespace LSM6DS3

/-- Build-time flag from the source (line 30): accelerometer scaling bypass
is active, so `getScaledValues` passes raw accel counts through as floats. -/
def DISABLE_ASCALE : Bool := true

/-- Build-time flag from the source (line 31): the Mahony filter variant is
selected; the fusion step is an external collaborator either way. -/
def MADGWICK : Bool := false

/-- Build-time flag from the source (line 32): no forced calibration at the
start of `motionSetup`. -/
def FORCE_CALIBRATION : Bool := false

/-- A raw 6-axis sample as returned by `imu.getMotion6`: six signed 16-bit
counts `(ax, ay, az, gx, gy, gz)`, modelled as integers. -/
structure RawSample where
  ax : Int
  ay : Int
  az : Int
  gx : Int
  gy : Int
  gz : Int
deriving DecidableEq, Repr

/-- A triple of float values (one entry per axis), modelling `float[3]`
arrays such as `G_off`, `A_B` and `Gxyz` in the source. -/
structure Vec3 where
  x : ℚ
  y : ℚ
  z : ℚ
deriving DecidableEq, Repr

/-- A 3x3 float matrix as three rows, modelling `A_Ainv[3][3]`. -/
structure Mat3 where
  r0 : Vec3
  r1 : Vec3
  r2 : Vec3
deriving DecidableEq, Repr

/-- The per-sensor calibration record `SlimeVR::Configuration::LSM6DS3`
data: gyro offsets `G_off`, accel bias `A_B`, accel correction `A_Ainv`. -/
structure CalibrationData where
  G_off : Vec3
  A_B : Vec3
  A_Ainv : Mat3
deriving DecidableEq, Repr

/-- Modelled from the spec: the live calibration record of a sensor is
zero-initialized at bring-up (spec section 3: `gyroOffset` zero-initialized;
the class declaration holding the member initializer is not among the
analyzed sources). -/
def defaultCalibration : CalibrationData :=
  ⟨⟨0, 0, 0⟩, ⟨0, 0, 0⟩, ⟨⟨0, 0, 0⟩, ⟨0, 0, 0⟩, ⟨0, 0, 0⟩⟩⟩

/-- The scaled 6-element output vector `AGxyz[6]` of `getScaledValues`:
slots 0-2 are the accel components, slots 3-5 the gyro components. -/
structure ScaledSample where
  a : Vec3
  g : Vec3
deriving DecidableEq, Repr

/-- `LSM6DS3Sensor::getScaledValues` (lines 115-137) with the build-time
`DISABLE_ASCALE = true` branch: accel counts are cast to float unscaled;
each gyro component is `((float)g - G_off[axis]) * imu.gscale`. The device
constant `imu.gscale` is a parameter. -/
def getScaledValues (gscale : ℚ) (cal : CalibrationData) (s : RawSample) :
    ScaledSample :=
  { a := ⟨(s.ax : ℚ), (s.ay : ℚ), (s.az : ℚ)⟩
    g := ⟨((s.gx : ℚ) - cal.G_off.x) * gscale,
          ((s.gy : ℚ) - cal.G_off.y) * gscale,
          ((s.gz : ℚ) - cal.G_off.z) * gscale⟩ }

/-- The fusion filter state array `float q[4]`, indexed `q[0] .. q[3]`. -/
structure FilterQuat where
  q0 : ℚ
  q1 : ℚ
  q2 : ℚ
  q3 : ℚ
deriving DecidableEq, Repr

/-- A quaternion in the external `(x, y, z, w)` component convention, as
held by the `Quat` helper type. -/
structure Quat where
  x : ℚ
  y : ℚ
  z : ℚ
  w : ℚ
deriving DecidableEq, Repr

/-- Modelled from the spec: `Quat::operator*` of the helper math library
(not among the analyzed sources) is quaternion (Hamilton) multiplication;
`quaternion *= sensorOffset` multiplies by the offset on the right. -/
def quatMul (p r : Quat) : Quat :=
  ⟨p.w * r.x + p.x * r.w + p.y * r.z - p.z * r.y,
   p.w * r.y - p.x * r.z + p.y * r.w + p.z * r.x,
   p.w * r.z + p.x * r.y - p.y * r.x + p.z * r.w,
   p.w * r.w - p.x * r.x - p.y * r.y - p.z * r.z⟩

/-- Modelled from the spec: `Quat::equalsWithEpsilon` (helper math library,
not among the analyzed sources) is a component-wise closeness test within a
small positive epsilon, kept as a parameter. -/
def equalsWithEpsilon (eps : ℚ) (a b : Quat) : Bool :=
  decide (|a.x - b.x| < eps) && decide (|a.y - b.y| < eps) &&
  decide (|a.z - b.z| < eps) && decide (|a.w - b.w| < eps)

/-- The axis remap of line 99: `quaternion.set(-q[2], q[1], q[3], q[0])`,
components given in `(x, y, z, w)` order. -/
def axisRemap (q : FilterQuat) : Quat :=
  ⟨-q.q2, q.q1, q.q3, q.q0⟩

/-- The mutable sensor state touched by `motionLoop`: the filter state `q`,
the derived `quaternion`, the change-detection state `lastQuatSent` and
`newData`, the tick timestamps `now`/`last`, and the live calibration. -/
structure SensorState where
  q : FilterQuat
  quaternion : Quat
  lastQuatSent : Quat
  newData : Bool
  now : Nat
  last : Nat
  m_Calibration : CalibrationData
deriving DecidableEq, Repr

/-- The environment of one `motionLoop` tick: the `OPTIMIZE_UPDATES` build
flag, the epsilon of `equalsWithEpsilon`, the fixed per-sensor mounting
offset, the device gyro scale, and the external fusion filter step
(`mahonyQuaternionUpdate` / `madgwickQuaternionUpdate`), a black-box
function of (state, scaled sample, dt seconds). -/
structure LoopEnv where
  OPTIMIZE_UPDATES : Bool
  eps : ℚ
  sensorOffset : Quat
  gscale : ℚ
  fusion : FilterQuat → ScaledSample → ℚ → FilterQuat

/-- `deltat * 1.0e-6f` of line 97: microseconds since the previous tick,
converted to seconds (Nat subtraction models the unsigned difference). -/
def deltatSec (t last : Nat) : ℚ :=
  ((t - last : Nat) : ℚ) * (1 / 1000000)

/-- The filter state after the fusion step of one tick (lines 92-97): the
filter advances on the scaled sample and the elapsed seconds. -/
def tickFilterQuat (env : LoopEnv) (raw : RawSample) (t : Nat)
    (st : SensorState) : FilterQuat :=
  env.fusion st.q (getScaledValues env.gscale st.m_Calibration raw)
    (deltatSec t st.last)

/-- The externally emitted quaternion of one tick (lines 99-100): the axis
remap of the fused filter state, then the mounting offset multiplied on the
right. -/
def tickQuat (env : LoopEnv) (raw : RawSample) (t : Nat)
    (st : SensorState) : Quat :=
  quatMul (axisRemap (tickFilterQuat env raw t st)) env.sensorOffset

/-- The change-detection condition of line 108:
`!OPTIMIZE_UPDATES || !lastQuatSent.equalsWithEpsilon(quaternion)`; when it
holds the tick marks new data. -/
def marks (env : LoopEnv) (raw : RawSample) (t : Nat)
    (st : SensorState) : Bool :=
  !env.OPTIMIZE_UPDATES ||
    !(equalsWithEpsilon env.eps st.lastQuatSent (tickQuat env raw t st))

/-- `LSM6DS3Sensor::motionLoop` (lines 80-113) as a state transformer: read
and scale a sample, advance the fusion filter, remap axes and apply the
mounting offset, then run change detection. The unconditional temperature
telemetry of line 101 and the inspection sends are pure side channels with
no effect on this state and are not modelled. -/
def motionLoop (env : LoopEnv) (raw : RawSample) (t : Nat)
    (st : SensorState) : SensorState :=
  let q' := tickFilterQuat env raw t st
  let quat := tickQuat env raw t st
  if marks env raw t st then
    { st with q := q', quaternion := quat, now := t, last := t,
              newData := true, lastQuatSent := quat }
  else
    { st with q := q', quaternion := quat, now := t, last := t }

/-- A run of consecutive `motionLoop` ticks over a list of (raw sample,
timestamp) inputs. -/
def runTicks (env : LoopEnv) (inputs : List (RawSample × Nat))
    (st : SensorState) : SensorState :=
  inputs.foldl (fun s p => motionLoop env p.1 p.2 s) st

/-- The sample count of `startCalibration`:
`constexpr int calibrationSamples = 300` (line 143). -/
def calibrationSamples : Nat := 300

/-- A telemetry emission of the calibration run:
`sendRawCalibrationData(Gxyz, CALIBRATION_TYPE_EXTERNAL_GYRO, 0)` carrying
the float triple `Gxyz`; `sendRawCalibrationData(calibrationDataAcc,
CALIBRATION_TYPE_EXTERNAL_ACCEL, 0)` carrying the accel buffer (its filled
prefix, the defined part at the time of the call); and
`sendCalibrationFinished(CALIBRATION_TYPE_EXTERNAL_ALL, 0)`. -/
inductive Telemetry where
  | rawGyro (payload : Vec3)
  | rawAccel (payload : List Vec3)
  | calibrationFinished
deriving DecidableEq, Repr

/-- Whether a telemetry emission is tagged `CALIBRATION_TYPE_EXTERNAL_GYRO`. -/
def isExternalGyro : Telemetry → Bool
  | Telemetry.rawGyro _ => true
  | _ => false

/-- One iteration of the gyro-bias capture loop (lines 149-156): read one
raw sample and add its gyro components to the accumulator. The loop body
contains no telemetry call, so the threaded emission list is untouched. -/
def gyroLoopBody (s : RawSample) (acc : Vec3 × List Telemetry) :
    Vec3 × List Telemetry :=
  (⟨acc.1.x + (s.gx : ℚ), acc.1.y + (s.gy : ℚ), acc.1.z + (s.gz : ℚ)⟩,
   acc.2)

/-- The gyro-capture loop (lines 149-156) run over the first
`calibrationSamples` reads of the stream, threading the accumulator and
the (untouched) telemetry list. -/
def gyroCaptureFold (stream : Nat → RawSample) : Vec3 × List Telemetry :=
  ((List.range calibrationSamples).map stream).foldl
    (fun a s => gyroLoopBody s a) (⟨0, 0, 0⟩, [])

/-- The per-axis division of lines 157-159: the accumulated sums divided by
the sample count. -/
def gyroCaptureMean (stream : Nat → RawSample) : Vec3 :=
  ⟨(gyroCaptureFold stream).1.x / (calibrationSamples : ℚ),
   (gyroCaptureFold stream).1.y / (calibrationSamples : ℚ),
   (gyroCaptureFold stream).1.z / (calibrationSamples : ℚ)⟩

/-- The gyro-bias phase of `startCalibration` (lines 143-167): accumulate
`calibrationSamples` consecutive raw samples from the stream, divide each
axis by the sample count, emit the result once tagged external gyro (line
164), and store it as the new `G_off` of the record (lines 165-167). -/
def startCalibrationGyroPhase (stream : Nat → RawSample)
    (cal : CalibrationData) : CalibrationData × List Telemetry :=
  ({ cal with G_off := gyroCaptureMean stream },
   (gyroCaptureFold stream).2 ++ [Telemetry.rawGyro (gyroCaptureMean stream)])

/-- One iteration of the accel capture loop (lines 172-182): append the raw
accel triple to the buffer and emit the buffer (its filled prefix) tagged
external accel. -/
def accelLoopBody (s : RawSample) (acc : List Vec3 × List Telemetry) :
    List Vec3 × List Telemetry :=
  (acc.1 ++ [(⟨(s.ax : ℚ), (s.ay : ℚ), (s.az : ℚ)⟩ : Vec3)],
   acc.2 ++ [Telemetry.rawAccel
     (acc.1 ++ [(⟨(s.ax : ℚ), (s.ay : ℚ), (s.az : ℚ)⟩ : Vec3)])])

/-- The accel-capture loop run over the first `calibrationSamples` reads of
the stream, threading buffer and telemetry. -/
def accelCaptureFold (stream : Nat → RawSample) : List Vec3 × List Telemetry :=
  ((List.range calibrationSamples).map stream).foldl
    (fun a s => accelLoopBody s a) ([], [])

/-- The accel phase of `startCalibration` (lines 169-197): capture
`calibrationSamples` raw accel triples (each also emitted as telemetry),
pass the buffer to the external ellipsoid-fit collaborator
`CalculateCalibration`, and store the returned bias row and 3x3 correction
matrix into `A_B` and `A_Ainv`. -/
def startCalibrationAccelPhase (stream : Nat → RawSample)
    (fit : List Vec3 → Vec3 × Mat3) (cal : CalibrationData) :
    CalibrationData × List Telemetry :=
  ({ cal with A_B := (fit (accelCaptureFold stream).1).1,
              A_Ainv := (fit (accelCaptureFold stream).1).2 },
   (accelCaptureFold stream).2)

/-- `LSM6DS3Sensor::startCalibration` (lines 139-209): the gyro-bias phase
followed by the accel phase, ending with the calibration-finished
emission. The updated record is also handed to the configuration store
(`setCalibration` then `save`); LED control, logging and delays are side
channels without data effect. The gyro and accel raw-read streams and the
ellipsoid-fit collaborator are parameters. -/
def startCalibration (gyroStream accelStream : Nat → RawSample)
    (fit : List Vec3 → Vec3 × Mat3) (cal : CalibrationData) :
    CalibrationData × List Telemetry :=
  ((startCalibrationAccelPhase accelStream fit
      (startCalibrationGyroPhase gyroStream cal).1).1,
   (startCalibrationGyroPhase gyroStream cal).2 ++
     (startCalibrationAccelPhase accelStream fit
       (startCalibrationGyroPhase gyroStream cal).1).2 ++
     [Telemetry.calibrationFinished])

/-- The log events of `motionSetup`, one constructor per logging call site
(message text abstracted to the call site's identity). -/
inductive LogEvent where
  | fatalCantConnect
  | infoConnected
  | infoFlipToConfirm
  | debugStartingCalibration
  | warnNoCalibrationData
  | warnIncompatibleCalibrationData
  | infoCalibrationAdvised
deriving DecidableEq, Repr

/-- The flip-gesture check of `motionSetup` (lines 47-60): `g_az` is
computed once from the first raw accel Z read; after the prompt and the
delay, Z is re-read into `az`, but the second comparison at line 55 tests
the unchanged `g_az`, not a value recomputed from the re-read. Returns
whether `startCalibration` is invoked, with the logs of this block. -/
def flipGesture (az1 az2 : Int) : Bool × List LogEvent :=
  if ((az1 : ℚ)) < -(3 / 4) then
    if ((az1 : ℚ)) > 3 / 4 then
      (true, [LogEvent.infoFlipToConfirm, LogEvent.debugStartingCalibration])
    else
      (false, [LogEvent.infoFlipToConfirm])
  else
    (false, [])

/-- The type tag of a persisted calibration record: the matching tag, the
absent tag, or any other (incompatible) tag. -/
inductive CalibrationConfigType where
  | LSM6DS3
  | NONE
  | other
deriving DecidableEq, Repr

/-- A persisted calibration record as returned by
`configuration.getCalibration(sensorId)`: a type tag and the LSM6DS3 union
member. -/
structure CalibrationConfig where
  tag : CalibrationConfigType
  lsm6ds3 : CalibrationData
deriving DecidableEq, Repr

/-- The external observations `motionSetup` draws on: the result of
`imu.testConnection()`, the two raw accel Z reads of the gesture check, and
the persisted record the configuration store returns. -/
structure SetupEnv where
  testConnection : Bool
  az1 : Int
  az2 : Int
  storedCalibration : CalibrationConfig
deriving DecidableEq, Repr

/-- The outcome of `motionSetup`: the `working` flag, the live calibration
record, the emitted logs, and whether the gesture path invoked
`startCalibration`. -/
structure SetupResult where
  working : Bool
  m_Calibration : CalibrationData
  logs : List LogEvent
  calibrationStarted : Bool
deriving DecidableEq, Repr

/-- `LSM6DS3Sensor::motionSetup` (lines 34-78) with the build-time
`FORCE_CALIBRATION = false`: initialize the device, bail out with a fatal
log if the connection test fails (leaving `working` false), otherwise run
the flip-gesture check, load the persisted calibration record (adopting it
only when its tag matches, warning otherwise), and set `working`. The
effect of a gesture-triggered `startCalibration` on the record is not
inlined because the gesture guard is unsatisfiable (see
`flip_gesture_never_triggers`). -/
def motionSetup (env : SetupEnv) (initCal : CalibrationData) : SetupResult :=
  if !env.testConnection then
    { working := false, m_Calibration := initCal,
      logs := [LogEvent.fatalCantConnect], calibrationStarted := false }
  else
    let gesture := flipGesture env.az1 env.az2
    let loaded :
        CalibrationData × List LogEvent :=
      match env.storedCalibration.tag with
      | CalibrationConfigType.LSM6DS3 => (env.storedCalibration.lsm6ds3, [])
      | CalibrationConfigType.NONE =>
          (initCal, [LogEvent.warnNoCalibrationData,
                     LogEvent.infoCalibrationAdvised])
      | CalibrationConfigType.other =>
          (initCal, [LogEvent.warnIncompatibleCalibrationData,
                     LogEvent.infoCalibrationAdvised])
    { working := true, m_Calibration := loaded.1,
      logs := [LogEvent.infoConnected] ++ gesture.2 ++ loaded.2,
      calibrationStarted := gesture.1 }

/-- A concrete raw sample used by witness theorems. -/
def wRaw : RawSample := ⟨1, 2, 3, 4, 5, 6⟩

/-- A concrete fusion step (the identity on the filter state) used by
witness theorems; the embedding treats the fusion step as a black box, so
any function of the right type instantiates it. -/
def wFusionId : FilterQuat → ScaledSample → ℚ → FilterQuat := fun q _ _ => q

/-- A concrete tick environment with output throttling enabled. -/
def wEnvOn : LoopEnv :=
  { OPTIMIZE_UPDATES := true, eps := 1 / 1000, sensorOffset := ⟨0, 0, 0, 1⟩,
    gscale := 1, fusion := wFusionId }

/-- A concrete tick environment with output throttling disabled. -/
def wEnvOff : LoopEnv :=
  { OPTIMIZE_UPDATES := false, eps := 1 / 1000, sensorOffset := ⟨0, 0, 0, 1⟩,
    gscale := 1, fusion := wFusionId }

/-- A concrete sensor state used by witness theorems; its `lastQuatSent`
already equals the quaternion the identity fusion step emits from it. -/
def wSt : SensorState :=
  { q := ⟨1, 0, 0, 0⟩, quaternion := ⟨0, 0, 0, 1⟩,
    lastQuatSent := ⟨0, 0, 0, 1⟩, newData := false, now := 0, last := 0,
    m_Calibration := defaultCalibration }

/-- A concrete calibration record with nonzero accel terms. -/
def wCalA : CalibrationData :=
  ⟨⟨1, 2, 3⟩, ⟨4, 5, 6⟩, ⟨⟨1, 0, 0⟩, ⟨0, 1, 0⟩, ⟨0, 0, 1⟩⟩⟩

/-- A concrete calibration record equal to `wCalA` on `G_off` but with
different `A_B` and `A_Ainv`. -/
def wCalB : CalibrationData :=
  ⟨⟨1, 2, 3⟩, ⟨0, 0, 0⟩, ⟨⟨0, 0, 0⟩, ⟨0, 0, 0⟩, ⟨0, 0, 0⟩⟩⟩

/-- A concrete setup environment whose connection test fails. -/
def wEnvFail : SetupEnv :=
  ⟨false, 0, 0, ⟨CalibrationConfigType.LSM6DS3, wCalA⟩⟩

/-- A concrete setup environment with a live connection and no persisted
calibration record. -/
def wEnvNoCal : SetupEnv :=
  ⟨true, 0, 0, ⟨CalibrationConfigType.NONE, wCalA⟩⟩

/-- C1: for every filter quaternion produced by the fusion step of a tick,
the emitted quaternion before the mounting offset is exactly
`(x, y, z, w) = (-q[2], q[1], q[3], q[0])`, and the fixed per-sensor
mounting offset is then applied by quaternion multiplication on the
right. -/
theorem axis_remap_mounting_offset (env : LoopEnv) (raw : RawSample)
    (t : Nat) (st : SensorState) :
    (motionLoop env raw t st).q = tickFilterQuat env raw t st ∧
    (motionLoop env raw t st).quaternion =
      quatMul ⟨-(tickFilterQuat env raw t st).q2,
               (tickFilterQuat env raw t st).q1,
               (tickFilterQuat env raw t st).q3,
               (tickFilterQuat env raw t st).q0⟩ env.sensorOffset := by
  unfold motionLoop
  split <;> exact ⟨rfl, rfl⟩

/-- C2: for every raw 16-bit sample and every stored gyro offset, each
scaled gyro component equals `(raw - G_off[axis]) * gscale`, with no
dependence on the accelerometer values. -/
theorem gyro_scaling_formula (gscale : ℚ) (cal : CalibrationData)
    (a1 a2 a3 b1 b2 b3 g1 g2 g3 : Int) :
    (getScaledValues gscale cal ⟨a1, a2, a3, g1, g2, g3⟩).g =
      ⟨((g1 : ℚ) - cal.G_off.x) * gscale,
       ((g2 : ℚ) - cal.G_off.y) * gscale,
       ((g3 : ℚ) - cal.G_off.z) * gscale⟩ ∧
    (getScaledValues gscale cal ⟨a1, a2, a3, g1, g2, g3⟩).g =
      (getScaledValues gscale cal ⟨b1, b2, b3, g1, g2, g3⟩).g :=
  ⟨rfl, rfl⟩

/-- The two guards of the flip-gesture block both test the stale value
computed from the first read, so they are jointly unsatisfiable. -/
lemma flipGesture_fst (az1 az2 : Int) : (flipGesture az1 az2).1 = false := by
  unfold flipGesture
  split
  case isTrue h1 =>
    split
    case isTrue h2 => exfalso; linarith
    case isFalse h2 => rfl
  case isFalse h1 => rfl

/-- C4 (code behavior at the failing input, and in general): the
flip-gesture path never invokes calibration, because the second comparison
tests the stale `g_az` from the first read; in particular a face-down read
followed by a face-up read does not trigger it, and `motionSetup` never
starts calibration through the gesture path. -/
theorem flip_gesture_never_triggers :
    (flipGesture (-100) 100).1 = false ∧
    (∀ az1 az2 : Int, (flipGesture az1 az2).1 = false) ∧
    (∀ (env : SetupEnv) (initCal : CalibrationData),
      (motionSetup env initCal).calibrationStarted = false) := by
  refine ⟨flipGesture_fst (-100) 100, flipGesture_fst, ?_⟩
  intro env initCal
  unfold motionSetup
  split
  · rfl
  · show (flipGesture env.az1 env.az2).1 = false
    exact flipGesture_fst env.az1 env.az2

/-- C6: with the accelerometer-scale bypass active, the scaled accel
outputs are the raw counts cast to float, and the whole scaled output is
identical across any two calibration records that agree on `G_off` (the
ellipsoid correction `A_B`/`A_Ainv` is never applied in this path). -/
theorem accel_scale_bypass_independent (gscale : ℚ)
    (cal cal2 : CalibrationData) (s : RawSample)
    (h : cal.G_off = cal2.G_off) :
    DISABLE_ASCALE = true ∧
    (getScaledValues gscale cal s).a = ⟨(s.ax : ℚ), (s.ay : ℚ), (s.az : ℚ)⟩ ∧
    getScaledValues gscale cal s = getScaledValues gscale cal2 s := by
  refine ⟨rfl, rfl, ?_⟩
  unfold getScaledValues
  rw [h]

/-- Witness for C6 at concrete records differing only in the accel terms. -/
theorem accel_scale_bypass_independent_witness :
    wCalA.G_off = wCalB.G_off ∧
    getScaledValues 2 wCalA wRaw = getScaledValues 2 wCalB wRaw :=
  ⟨rfl, (accel_scale_bypass_independent 2 wCalA wCalB wRaw rfl).2.2⟩

/-- C8: if the connection test fails at startup, the fatal log is the only
emitted log, `working` stays false (so the caller never enters the tick
loop for this sensor), no calibration is started, and the live calibration
record is left at its bring-up value: no further startup step runs. -/
theorem connection_failure_halts_setup (env : SetupEnv)
    (initCal : CalibrationData) (h : env.testConnection = false) :
    (motionSetup env initCal).working = false ∧
    (motionSetup env initCal).logs = [LogEvent.fatalCantConnect] ∧
    (motionSetup env initCal).calibrationStarted = false ∧
    (motionSetup env initCal).m_Calibration = initCal := by
  simp [motionSetup, h]

/-- Witness for C8 at a concrete failing environment. -/
theorem connection_failure_halts_setup_witness :
    wEnvFail.testConnection = false ∧
    (motionSetup wEnvFail defaultCalibration).working = false ∧
    (motionSetup wEnvFail defaultCalibration).logs =
      [LogEvent.fatalCantConnect] :=
  ⟨rfl, (connection_failure_halts_setup wEnvFail defaultCalibration rfl).1,
   (connection_failure_halts_setup wEnvFail defaultCalibration rfl).2.1⟩

/-- C9: when the persisted record is absent or carries an incompatible
tag, startup warns, keeps the zero-initialized live calibration (so the
scaler behaves as if the gyro offset were zero), and still marks the
sensor working. -/
theorem missing_calibration_record_defaults (env : SetupEnv)
    (h1 : env.testConnection = true)
    (h2 : env.storedCalibration.tag ≠ CalibrationConfigType.LSM6DS3) :
    (motionSetup env defaultCalibration).working = true ∧
    (motionSetup env defaultCalibration).m_Calibration = defaultCalibration ∧
    (LogEvent.warnNoCalibrationData ∈ (motionSetup env defaultCalibration).logs ∨
      LogEvent.warnIncompatibleCalibrationData ∈
        (motionSetup env defaultCalibration).logs) ∧
    (∀ (gscale : ℚ) (s : RawSample),
      (getScaledValues gscale (motionSetup env defaultCalibration).m_Calibration s).g =
        ⟨(s.gx : ℚ) * gscale, (s.gy : ℚ) * gscale, (s.gz : ℚ) * gscale⟩) := by
  cases htag : env.storedCalibration.tag with
  | LSM6DS3 => exact absurd htag h2
  | NONE =>
      refine ⟨by simp [motionSetup, h1, htag], by simp [motionSetup, h1, htag],
        Or.inl (by simp [motionSetup, h1, htag]), ?_⟩
      intro gscale s
      simp [motionSetup, h1, htag, getScaledValues, defaultCalibration]
  | other =>
      refine ⟨by simp [motionSetup, h1, htag], by simp [motionSetup, h1, htag],
        Or.inr (by simp [motionSetup, h1, htag]), ?_⟩
      intro gscale s
      simp [motionSetup, h1, htag, getScaledValues, defaultCalibration]

/-- The gyro-capture fold accumulates the per-axis sums of the samples and
leaves the threaded telemetry list untouched. -/
lemma gyroFold_spec (l : List RawSample) (v : Vec3) (tel : List Telemetry) :
    (l.foldl (fun a s => gyroLoopBody s a) (v, tel)).1 =
      ⟨v.x + (l.map fun s => ((s.gx : ℚ))).sum,
       v.y + (l.map fun s => ((s.gy : ℚ))).sum,
       v.z + (l.map fun s => ((s.gz : ℚ))).sum⟩ ∧
    (l.foldl (fun a s => gyroLoopBody s a) (v, tel)).2 = tel := by
  induction l generalizing v tel with
  | nil => simp
  | cons s rest ih =>
      rw [List.foldl_cons]
      obtain ⟨h1, h2⟩ :=
        ih ⟨v.x + (s.gx : ℚ), v.y + (s.gy : ℚ), v.z + (s.gz : ℚ)⟩ tel
      constructor
      · rw [show gyroLoopBody s (v, tel) =
            ((⟨v.x + (s.gx : ℚ), v.y + (s.gy : ℚ), v.z + (s.gz : ℚ)⟩ : Vec3),
             tel) from rfl, h1]
        simp [Vec3.mk.injEq, add_assoc]
      · rw [show gyroLoopBody s (v, tel) =
            ((⟨v.x + (s.gx : ℚ), v.y + (s.gy : ℚ), v.z + (s.gz : ℚ)⟩ : Vec3),
             tel) from rfl, h2]

/-- The record and telemetry of the gyro-bias phase: `G_off` becomes the
per-axis sum of the 300 captured samples divided by 300, the other record
fields are unchanged, and the phase emits exactly one event, tagged
external gyro and carrying that quotient. -/
lemma gyroCaptureMean_eq (stream : Nat → RawSample) :
    gyroCaptureMean stream =
      ⟨(((List.range calibrationSamples).map stream).map
          fun s => ((s.gx : ℚ))).sum / (calibrationSamples : ℚ),
       (((List.range calibrationSamples).map stream).map
          fun s => ((s.gy : ℚ))).sum / (calibrationSamples : ℚ),
       (((List.range calibrationSamples).map stream).map
          fun s => ((s.gz : ℚ))).sum / (calibrationSamples : ℚ)⟩ := by
  obtain ⟨h1, h2⟩ :=
    gyroFold_spec ((List.range calibrationSamples).map stream) ⟨0, 0, 0⟩ []
  unfold gyroCaptureMean gyroCaptureFold
  rw [h1]
  simp

lemma gyroPhase_spec (stream : Nat → RawSample) (cal : CalibrationData) :
    (startCalibrationGyroPhase stream cal).1 =
      { cal with G_off := gyroCaptureMean stream } ∧
    (startCalibrationGyroPhase stream cal).2 =
      [Telemetry.rawGyro (gyroCaptureMean stream)] := by
  obtain ⟨h1, h2⟩ :=
    gyroFold_spec ((List.range calibrationSamples).map stream) ⟨0, 0, 0⟩ []
  constructor
  · rfl
  · unfold startCalibrationGyroPhase gyroCaptureFold
    rw [h2]
    rfl

/-- The accel-capture fold only appends events tagged external accel: it
adds no external-gyro event to the threaded telemetry list. -/
lemma accelFold_no_gyro (l : List RawSample) (buf : List Vec3)
    (tel : List Telemetry) :
    ((l.foldl (fun a s => accelLoopBody s a) (buf, tel)).2.filter
        fun e => isExternalGyro e) =
      tel.filter fun e => isExternalGyro e := by
  induction l generalizing buf tel with
  | nil => rfl
  | cons s rest ih =>
      rw [List.foldl_cons]
      rw [show accelLoopBody s (buf, tel) =
          (buf ++ [(⟨(s.ax : ℚ), (s.ay : ℚ), (s.az : ℚ)⟩ : Vec3)],
           tel ++ [Telemetry.rawAccel
             (buf ++ [(⟨(s.ax : ℚ), (s.ay : ℚ), (s.az : ℚ)⟩ : Vec3)])])
          from rfl]
      rw [ih]
      simp [isExternalGyro]

/-- Across the whole calibration run, the events tagged external gyro are
exactly one, emitted by the gyro phase and carrying the captured mean. -/
lemma startCalibration_externalGyro_events
    (gyroStream accelStream : Nat → RawSample)
    (fit : List Vec3 → Vec3 × Mat3) (cal : CalibrationData) :
    ((startCalibration gyroStream accelStream fit cal).2.filter
        fun e => isExternalGyro e) =
      [Telemetry.rawGyro (gyroCaptureMean gyroStream)] := by
  unfold startCalibration startCalibrationAccelPhase
  rw [List.filter_append, List.filter_append]
  rw [(gyroPhase_spec gyroStream cal).2]
  have ha := accelFold_no_gyro
    ((List.range calibrationSamples).map accelStream) [] []
  unfold accelCaptureFold
  rw [ha]
  simp [isExternalGyro]

/-- C3: the gyro bias produced by a calibration run is, per axis, the
arithmetic mean of exactly 300 consecutive raw gyro samples, and that mean
is stored wholesale as the `G_off` of the resulting record (the later
accel phase does not change it). -/
theorem gyro_bias_is_mean (gyroStream accelStream : Nat → RawSample)
    (fit : List Vec3 → Vec3 × Mat3) (cal : CalibrationData) :
    ((List.range calibrationSamples).map gyroStream).length = 300 ∧
    (startCalibration gyroStream accelStream fit cal).1.G_off =
      ⟨(((List.range calibrationSamples).map gyroStream).map
          fun s => ((s.gx : ℚ))).sum / 300,
       (((List.range calibrationSamples).map gyroStream).map
          fun s => ((s.gy : ℚ))).sum / 300,
       (((List.range calibrationSamples).map gyroStream).map
          fun s => ((s.gz : ℚ))).sum / 300⟩ := by
  constructor
  · simp [calibrationSamples]
  · have h : (startCalibration gyroStream accelStream fit cal).1.G_off =
        gyroCaptureMean gyroStream := rfl
    rw [h, gyroCaptureMean_eq]
    norm_num [calibrationSamples]

/-- C5 counterexample: formalizing the claim as "the gyro-capture phase
makes one external-gyro telemetry emission per captured sample" (300 in
all), the claim is false already at the constant-zero sample stream: the
run emits exactly one external-gyro event, after the averaging. -/
theorem gyro_telemetry_not_per_sample :
    ¬(((startCalibration (fun _ => ⟨0, 0, 0, 0, 0, 0⟩)
          (fun _ => ⟨0, 0, 0, 0, 0, 0⟩)
          (fun _ => (⟨0, 0, 0⟩, ⟨⟨0, 0, 0⟩, ⟨0, 0, 0⟩, ⟨0, 0, 0⟩⟩))
          defaultCalibration).2.filter
        fun e => isExternalGyro e).length = calibrationSamples) := by
  intro h
  rw [startCalibration_externalGyro_events] at h
  simp [calibrationSamples] at h

/-- C5 as amended: during the gyro-bias capture phase the raw samples are
not streamed individually; the whole calibration run emits exactly one
telemetry event tagged external gyro, after the 300 samples are averaged,
and its payload is the computed per-axis mean (the stored bias itself). -/
theorem gyro_telemetry_single_mean (gyroStream accelStream : Nat → RawSample)
    (fit : List Vec3 → Vec3 × Mat3) (cal : CalibrationData) :
    ((startCalibration gyroStream accelStream fit cal).2.filter
        fun e => isExternalGyro e) =
      [Telemetry.rawGyro
        ⟨(((List.range calibrationSamples).map gyroStream).map
            fun s => ((s.gx : ℚ))).sum / 300,
         (((List.range calibrationSamples).map gyroStream).map
            fun s => ((s.gy : ℚ))).sum / 300,
         (((List.range calibrationSamples).map gyroStream).map
            fun s => ((s.gz : ℚ))).sum / 300⟩] ∧
    ((startCalibration gyroStream accelStream fit cal).2.filter
        fun e => isExternalGyro e).length = 1 := by
  have h := startCalibration_externalGyro_events gyroStream accelStream fit cal
  constructor
  · rw [h, gyroCaptureMean_eq]
    norm_num [calibrationSamples]
  · rw [h]
    rfl

/-- Witness for C9 at a concrete environment with no persisted record. -/
theorem missing_calibration_record_defaults_witness :
    wEnvNoCal.testConnection = true ∧
    wEnvNoCal.storedCalibration.tag ≠ CalibrationConfigType.LSM6DS3 ∧
    (motionSetup wEnvNoCal defaultCalibration).working = true ∧
    (motionSetup wEnvNoCal defaultCalibration).m_Calibration =
      defaultCalibration :=
  ⟨rfl, by decide,
   (missing_calibration_record_defaults wEnvNoCal rfl (by decide)).1,
   (missing_calibration_record_defaults wEnvNoCal rfl (by decide)).2.1⟩

/-- Both branches of a tick store the fused filter state into `q`. -/
lemma motionLoop_q (env : LoopEnv) (raw : RawSample) (t : Nat)
    (st : SensorState) :
    (motionLoop env raw t st).q = tickFilterQuat env raw t st := by
  unfold motionLoop
  split <;> rfl

/-- With the identity fusion step, the change-detection condition of a
repeat tick from `wSt` under throttling is false. -/
lemma wEnvOn_marks_eq_false : marks wEnvOn wRaw 1 wSt = false := by
  norm_num [marks, equalsWithEpsilon, tickQuat, tickFilterQuat, axisRemap,
    quatMul, wEnvOn, wFusionId, wSt]

/-- Component-wise epsilon closeness is reflexive for a positive epsilon. -/
lemma equalsWithEpsilon_refl (eps : ℚ) (q : Quat) (h : 0 < eps) :
    equalsWithEpsilon eps q q = true := by
  simp [equalsWithEpsilon, h]

/-- A tick whose change-detection condition holds sets `newData` and
updates `lastQuatSent` to the tick's quaternion. -/
lemma motionLoop_marks_true (env : LoopEnv) (raw : RawSample) (t : Nat)
    (st : SensorState) (h : marks env raw t st = true) :
    (motionLoop env raw t st).newData = true ∧
    (motionLoop env raw t st).lastQuatSent = tickQuat env raw t st := by
  unfold motionLoop
  rw [if_pos h]
  exact ⟨rfl, rfl⟩

/-- A tick whose change-detection condition fails leaves `newData` and
`lastQuatSent` unchanged. -/
lemma motionLoop_marks_false (env : LoopEnv) (raw : RawSample) (t : Nat)
    (st : SensorState) (h : marks env raw t st = false) :
    (motionLoop env raw t st).newData = st.newData ∧
    (motionLoop env raw t st).lastQuatSent = st.lastQuatSent := by
  unfold motionLoop
  rw [if_neg (by simp [h])]
  exact ⟨rfl, rfl⟩

/-- C7: with throttling enabled and a positive epsilon, a second
consecutive tick that produces the same output quaternion does not mark
new data; with throttling disabled, every tick marks new data. -/
theorem throttling_idempotence (env : LoopEnv) (raw : RawSample)
    (t1 t2 : Nat) (st : SensorState) :
    (env.OPTIMIZE_UPDATES = true → 0 < env.eps →
      tickQuat env raw t2 (motionLoop env raw t1 st) = tickQuat env raw t1 st →
      marks env raw t2 (motionLoop env raw t1 st) = false) ∧
    (env.OPTIMIZE_UPDATES = false →
      marks env raw t1 st = true ∧
      marks env raw t2 (motionLoop env raw t1 st) = true) := by
  constructor
  · intro hopt heps hq
    by_cases hm : marks env raw t1 st = true
    · have hls := (motionLoop_marks_true env raw t1 st hm).2
      unfold marks
      rw [hopt, hq, hls]
      simp [equalsWithEpsilon_refl env.eps (tickQuat env raw t1 st) heps]
    · have hm' : marks env raw t1 st = false := by simpa using hm
      have hls := (motionLoop_marks_false env raw t1 st hm').2
      have he : equalsWithEpsilon env.eps st.lastQuatSent
          (tickQuat env raw t1 st) = true := by
        unfold marks at hm'
        rw [hopt] at hm'
        simpa using hm'
      unfold marks
      rw [hopt, hq, hls, he]
      rfl
  · intro hopt
    constructor <;> (unfold marks; rw [hopt]; rfl)

/-- Witness for C7: a throttled repeat tick stays silent, an unthrottled
tick always marks. -/
theorem throttling_idempotence_witness :
    marks wEnvOn wRaw 2 (motionLoop wEnvOn wRaw 1 wSt) = false ∧
    marks wEnvOff wRaw 1 wSt = true :=
  ⟨(throttling_idempotence wEnvOn wRaw 1 2 wSt).1 rfl (by norm_num [wEnvOn])
     (by simp [tickQuat, tickFilterQuat, wEnvOn, wFusionId, motionLoop_q]),
   ((throttling_idempotence wEnvOff wRaw 1 2 wSt).2 rfl).1⟩

/-- Decomposition of a list with a distinguished last element along a
middle split: the split point is either that last element or earlier. -/
lemma append_singleton_decomp {α : Type} (l pre : List α) (p x : α)
    (post : List α) (h : l ++ [x] = pre ++ p :: post) :
    (pre = l ∧ p = x ∧ post = []) ∨
    (∃ post2, post = post2 ++ [x] ∧ l = pre ++ p :: post2) := by
  revert h
  induction post using List.reverseRecOn with
  | nil =>
      intro h
      left
      obtain ⟨h3, h4⟩ := List.append_inj' h rfl
      have h5 : x = p := by simpa using h4
      exact ⟨h3.symm, h5.symm, rfl⟩
  | append_singleton post2 y ih =>
      intro h
      right
      have h2 : l ++ [x] = (pre ++ p :: post2) ++ [y] := by
        rw [h]
        simp
      obtain ⟨h3, h4⟩ := List.append_inj' h2 rfl
      have h5 : y = x := by simpa using h4.symm
      refine ⟨post2, ?_, h3⟩
      rw [h5]

/-- Running ticks over appended input lists composes. -/
lemma runTicks_append (env : LoopEnv) (l1 l2 : List (RawSample × Nat))
    (st : SensorState) :
    runTicks env (l1 ++ l2) st = runTicks env l2 (runTicks env l1 st) := by
  unfold runTicks
  rw [List.foldl_append]

/-- Over any run of ticks, either no tick marked and both `lastQuatSent`
and `newData` are unchanged, or `lastQuatSent` equals the quaternion of
the most recent tick that marked new data. -/
lemma runTicks_lastSent (env : LoopEnv) (inputs : List (RawSample × Nat))
    (st0 : SensorState) :
    ((∀ pre p post, inputs = pre ++ p :: post →
        marks env p.1 p.2 (runTicks env pre st0) = false) ∧
      (runTicks env inputs st0).lastQuatSent = st0.lastQuatSent ∧
      (runTicks env inputs st0).newData = st0.newData) ∨
    (∃ pre p post, inputs = pre ++ p :: post ∧
      marks env p.1 p.2 (runTicks env pre st0) = true ∧
      (runTicks env inputs st0).lastQuatSent =
        tickQuat env p.1 p.2 (runTicks env pre st0) ∧
      ∀ pre2 p2 post2, post = pre2 ++ p2 :: post2 →
        marks env p2.1 p2.2 (runTicks env (pre ++ p :: pre2) st0) = false) := by
  induction inputs using List.reverseRecOn with
  | nil =>
      left
      refine ⟨?_, rfl, rfl⟩
      intro pre p post hh
      exact absurd hh (by simp)
  | append_singleton l x ih =>
      have hrun : runTicks env (l ++ [x]) st0 =
          motionLoop env x.1 x.2 (runTicks env l st0) := by
        rw [runTicks_append]
        rfl
      by_cases hm : marks env x.1 x.2 (runTicks env l st0) = true
      · right
        refine ⟨l, x, [], by simp, hm, ?_, ?_⟩
        · rw [hrun]
          exact (motionLoop_marks_true env x.1 x.2 _ hm).2
        · intro pre2 p2 post2 hh
          exact absurd hh (by simp)
      · have hm' : marks env x.1 x.2 (runTicks env l st0) = false := by
          simpa using hm
        have hkeep := motionLoop_marks_false env x.1 x.2 _ hm'
        rcases ih with ⟨hnone, hsent, hnew⟩ |
          ⟨pre, p, post, heq, hmk, hsent, hpost⟩
        · left
          refine ⟨?_, ?_, ?_⟩
          · intro pre p post hh
            rcases append_singleton_decomp l pre p x post hh with
              ⟨hp, hpx, hp0⟩ | ⟨post2, hp0, hl⟩
            · rw [hp, hpx]
              exact hm'
            · exact hnone pre p post2 hl
          · rw [hrun, hkeep.2]
            exact hsent
          · rw [hrun, hkeep.1]
            exact hnew
        · right
          refine ⟨pre, p, post ++ [x], by rw [heq]; simp, hmk, ?_, ?_⟩
          · rw [hrun, hkeep.2]
            exact hsent
          · intro pre2 p2 post2 hh
            rcases append_singleton_decomp post pre2 p2 x post2 hh with
              ⟨hp, hpx, hp0⟩ | ⟨post3, hp0, hpl⟩
            · rw [hp, hpx, ← heq]
              exact hm'
            · exact hpost pre2 p2 post3 hpl

/-- C10: in every tick, `lastQuatSent` is updated exactly when `newData`
is set in that tick; a suppressed tick changes neither, so over any run
`lastQuatSent` equals the quaternion of the most recent tick that marked
new data (or its initial value when no tick marked). -/
theorem last_quat_sent_frame (env : LoopEnv) (raw : RawSample) (t : Nat)
    (st : SensorState) :
    (marks env raw t st = true →
      (motionLoop env raw t st).newData = true ∧
      (motionLoop env raw t st).lastQuatSent = tickQuat env raw t st) ∧
    (marks env raw t st = false →
      (motionLoop env raw t st).newData = st.newData ∧
      (motionLoop env raw t st).lastQuatSent = st.lastQuatSent) ∧
    (∀ (inputs : List (RawSample × Nat)) (st0 : SensorState),
      ((∀ pre p post, inputs = pre ++ p :: post →
          marks env p.1 p.2 (runTicks env pre st0) = false) ∧
        (runTicks env inputs st0).lastQuatSent = st0.lastQuatSent ∧
        (runTicks env inputs st0).newData = st0.newData) ∨
      (∃ pre p post, inputs = pre ++ p :: post ∧
        marks env p.1 p.2 (runTicks env pre st0) = true ∧
        (runTicks env inputs st0).lastQuatSent =
          tickQuat env p.1 p.2 (runTicks env pre st0) ∧
        ∀ pre2 p2 post2, post = pre2 ++ p2 :: post2 →
          marks env p2.1 p2.2 (runTicks env (pre ++ p :: pre2) st0) = false)) :=
  ⟨fun h => motionLoop_marks_true env raw t st h,
   fun h => motionLoop_marks_false env raw t st h,
   fun inputs st0 => runTicks_lastSent env inputs st0⟩

/-- Witness for C10: a marking tick sets the flag and stores its
quaternion; a suppressed tick leaves `lastQuatSent` unchanged. -/
theorem last_quat_sent_frame_witness :
    (marks wEnvOff wRaw 1 wSt = true ∧
      (motionLoop wEnvOff wRaw 1 wSt).newData = true) ∧
    (marks wEnvOn wRaw 1 wSt = false ∧
      (motionLoop wEnvOn wRaw 1 wSt).lastQuatSent = wSt.lastQuatSent) :=
  ⟨⟨rfl, ((last_quat_sent_frame wEnvOff wRaw 1 wSt).1 rfl).1⟩,
   ⟨wEnvOn_marks_eq_false,
    ((last_quat_sent_frame wEnvOn wRaw 1 wSt).2.1 wEnvOn_marks_eq_false).2⟩⟩

end LSM6DS3
